import Mathlib

/-!
Verification development for the NetSuite financial validator core:
a shallow embedding of the schema-normalization and report-query engine
(`utils/load_data.py`, `utils/transforms.py`, `utils/calculations.py`,
`utils/trial_balance.py`, `utils/p_and_l.py`, `utils/balance_sheet.py`).

Raw CSV tables are modelled as lists of rows of nullable string cells.
DuckDB casts are modelled by executable parsers; BIGINT becomes ℤ and
DOUBLE becomes ℚ (exact arithmetic idealisation of IEEE doubles).
SQL joins are modelled by list combinators with SQL null-comparison
semantics (a null key never matches), and GROUP BY by key deduplication.
-/

namespace NSFV

/-! ### Cell-level parsers (DuckDB TRY_CAST / CAST semantics) -/

/-- A raw CSV cell: either SQL NULL or a string value. -/
abbrev Cell := Option String

def digitVal (c : Char) : Option ℕ :=
  if c == ('0') then some 0 else if c == ('1') then some 1
  else if c == ('2') then some 2 else if c == ('3') then some 3
  else if c == ('4') then some 4 else if c == ('5') then some 5
  else if c == ('6') then some 6 else if c == ('7') then some 7
  else if c == ('8') then some 8 else if c == ('9') then some 9
  else none

def natFromDigits : List Char → ℕ → Option ℕ
  | [], acc => some acc
  | c :: cs, acc =>
    match digitVal c with
    | some d => natFromDigits cs (acc * 10 + d)
    | none => none

/-- Parse a nonempty all-digit character list as a natural number. -/
def natLit (l : List Char) : Option ℕ :=
  match l with
  | [] => none
  | _ :: _ => natFromDigits l 0

/-- Integer parse: optional leading minus sign, then digits (TRY_CAST AS BIGINT). -/
def intLit (l : List Char) : Option ℤ :=
  match l with
  | [] => none
  | c :: cs =>
    if c == ('-') then (natLit cs).map (fun n => -(n : ℤ))
    else (natLit (c :: cs)).map (fun n => (n : ℤ))

/-- Decimal parse: optional sign, integer digits, optional dot and fraction
digits (CAST AS DOUBLE, idealised to ℚ). -/
def ratLitNoSign (l : List Char) : Option ℚ :=
  match l.splitOn ('.') with
  | [w] => (natLit w).map (fun n => (n : ℚ))
  | [w, f] =>
    match natLit w, natLit f with
    | some wn, some fn => some ((wn : ℚ) + (fn : ℚ) / (10 : ℚ) ^ f.length)
    | _, _ => none
  | _ => none

def ratLit (l : List Char) : Option ℚ :=
  match l with
  | [] => none
  | c :: cs => if c == ('-') then (ratLitNoSign cs).map (fun q => -q) else ratLitNoSign (c :: cs)

def charLower (c : Char) : Char :=
  if 65 ≤ c.toNat && c.toNat ≤ 90 then Char.ofNat (c.toNat + 32) else c

def strLower (s : String) : String := ⟨s.data.map charLower⟩

def charsStartWith : List Char → List Char → Bool
  | _, [] => true
  | [], _ :: _ => false
  | c :: cs, p :: ps => c == p && charsStartWith cs ps

def charsContain : List Char → List Char → Bool
  | [], p => p.isEmpty
  | c :: cs, p => charsStartWith (c :: cs) p || charsContain cs p

/-- Substring test (the Python `in` operator on strings). -/
def strContainsSub (s pat : String) : Bool := charsContain s.data pat.data

/-- TRY_CAST(cell AS BIGINT): NULL on NULL input or parse failure. -/
def tryCastInt (c : Cell) : Option ℤ := c.bind (fun s => intLit s.data)

/-- TRY_CAST(cell AS BOOLEAN): accepts true/false literals case-insensitively. -/
def tryCastBool (c : Cell) : Option Bool :=
  c.bind (fun s =>
    let l := strLower s
    if l == ("true") || l == ("t") || l == ("1") then some true
    else if l == ("false") || l == ("f") || l == ("0") then some false
    else none)

/-- CAST(cell AS DOUBLE), as a partial parse; a `none` on a non-null cell is a
fatal conversion error in DuckDB. -/
def castRat (c : Cell) : Option ℚ := c.bind (fun s => ratLit s.data)

/-- TRY_CAST(cell AS DATE): accepts YYYY-MM-DD shaped values, keeping the text. -/
def tryCastDate (c : Cell) : Option String :=
  c.bind (fun s =>
    match s.data.splitOn ('-') with
    | [y, m, d] =>
      match natLit y, natLit m, natLit d with
      | some _, some mo, some da =>
        if 1 ≤ mo && mo ≤ 12 && 1 ≤ da && da ≤ 31 then some s else none
      | _, _, _ => none
    | _ => none)

/-! ### Raw tables and column resolution -/

/-- A raw uploaded table: header column names plus rows of nullable cells,
each row aligned positionally with the header. -/
structure RawTable where
  cols : List String
  rows : List (List Cell)
deriving DecidableEq

/-- Look up a cell by column name (NULL when the column is absent). -/
def RawTable.cell (t : RawTable) (r : List Cell) (c : String) : Cell :=
  match t.cols.findIdx? (fun x => x == c) with
  | none => none
  | some i => (r.get? i).getD none

/-- First alias present in the column set, defaulting to the first option
(`get_column` in load_data.py). -/
def get_column (cols : List String) (options : List String) : String :=
  match options.find? (fun c => cols.contains c) with
  | some c => c
  | none => options.headD ("")

/-! ### Normalized schema (the six DuckDB tables) -/

structure AccountRow where
  id : Option ℤ
  fullname : Option String
  accttype : Option String
deriving DecidableEq

structure SubsidiaryRow where
  id : Option ℤ
  name : Option String
deriving DecidableEq

structure TransactionHeaderRow where
  id : Option ℤ
  trandate : Option String
  postingperiod : Option ℤ
  nonposting : Bool
deriving DecidableEq

structure TransactionLineRow where
  transaction : Option ℤ
  subsidiary : Option ℤ
  department : Option ℤ
deriving DecidableEq

structure TalRow where
  transaction : Option ℤ
  account : Option ℤ
  amount : ℚ
deriving DecidableEq

structure PeriodRow where
  id : Option ℤ
  periodname : Option String
  fiscalyear : Option ℤ
  quarter : Option ℤ
  month : Option ℤ
  startdate : Option String
  enddate : Option String
deriving DecidableEq

/-! ### Normalizers (load_data.py); a `.error` models a raised exception -/

def normalize_account_table (t : RawTable) : Except String (List AccountRow) :=
  let idc := get_column t.cols ["id", "account_id"]
  let namec := get_column t.cols ["fullname", "name", "account_name", "accountsearchdisplayname"]
  let typec := get_column t.cols ["accttype", "accounttype", "account_type"]
  if t.cols.contains idc && t.cols.contains namec && t.cols.contains typec then
    .ok ((t.rows.filter (fun r => (t.cell r idc).isSome)).map (fun r =>
      ⟨tryCastInt (t.cell r idc), t.cell r namec, t.cell r typec⟩))
  else .error ("Binder Error: referenced column not found in account table")

def normalize_subsidiary_table (t : RawTable) : Except String (List SubsidiaryRow) :=
  let idc := get_column t.cols ["id", "subsidiary_id"]
  let namec := get_column t.cols ["name", "fullname", "subsidiary_name"]
  if t.cols.contains idc && t.cols.contains namec then
    .ok ((t.rows.filter (fun r => (t.cell r idc).isSome)).map (fun r =>
      ⟨tryCastInt (t.cell r idc), t.cell r namec⟩))
  else .error ("Binder Error: referenced column not found in subsidiary table")

def normalize_transaction_table (t : RawTable) : Except String (List TransactionHeaderRow) :=
  let idc := get_column t.cols ["id", "transaction_id"]
  let datec := get_column t.cols ["trandate", "transaction_date", "date"]
  let periodc := get_column t.cols ["postingperiod", "posting_period", "period", "accountingperiod"]
  let npc := get_column t.cols ["nonposting", "isnonposting", "posting"]
  let hasDate := t.cols.contains datec
  let hasPeriod := t.cols.contains periodc
  let hasNp := t.cols.contains npc
  if t.cols.contains idc then
    .ok ((t.rows.filter (fun r => (t.cell r idc).isSome)).map (fun r =>
      ⟨tryCastInt (t.cell r idc),
       if hasDate then tryCastDate (t.cell r datec) else none,
       if hasPeriod then tryCastInt (t.cell r periodc) else none,
       if !hasNp then false
       else if strContainsSub (strLower npc) ("posting") then
         !((tryCastBool (t.cell r npc)).getD true)
       else (tryCastBool (t.cell r npc)).getD false⟩))
  else .error ("Binder Error: referenced column not found in transaction table")

def normalize_transactionline_table (t : RawTable) : Except String (List TransactionLineRow) :=
  let trxc := get_column t.cols ["transaction", "transaction_id"]
  let subc := get_column t.cols ["subsidiary", "subsidiary_id"]
  let deptc := get_column t.cols ["department", "department_id"]
  let hasDept := t.cols.contains deptc
  if t.cols.contains trxc && t.cols.contains subc then
    .ok ((t.rows.filter (fun r => (t.cell r trxc).isSome)).map (fun r =>
      ⟨tryCastInt (t.cell r trxc), tryCastInt (t.cell r subc),
       if hasDept then tryCastInt (t.cell r deptc) else none⟩))
  else .error ("Binder Error: referenced column not found in transactionline table")

/-- The WHERE-retained raw rows of the accounting-line normalization:
raw rows whose transaction, account and amount cells are all non-null. -/
def keptTalRows (t : RawTable) : List (List Cell) :=
  t.rows.filter (fun r =>
    (t.cell r (get_column t.cols ["transaction", "transaction_id"])).isSome
      && (t.cell r (get_column t.cols ["account", "account_id"])).isSome
      && (t.cell r ("amount")).isSome)

def normalize_transactionaccountingline_table (t : RawTable) : Except String (List TalRow) :=
  if !(t.cols.contains (get_column t.cols ["transaction", "transaction_id"])) then
    .error (("Transaction column not found in transactionaccountingline. ")
      ++ (("Available columns: ") ++ String.intercalate (", ") t.cols))
  else if !(t.cols.contains (get_column t.cols ["account", "account_id"])) then
    .error (("Account column not found in transactionaccountingline. ")
      ++ (("Available columns: ") ++ String.intercalate (", ") t.cols))
  else if !(t.cols.contains ("amount")) then
    .error (("Amount column not found in transactionaccountingline. ")
      ++ (("Available columns: ") ++ String.intercalate (", ") t.cols))
  else
    if (keptTalRows t).all (fun r => (castRat (t.cell r ("amount"))).isSome) then
      .ok ((keptTalRows t).map (fun r =>
        ⟨tryCastInt (t.cell r (get_column t.cols ["transaction", "transaction_id"])),
         tryCastInt (t.cell r (get_column t.cols ["account", "account_id"])),
         (castRat (t.cell r ("amount"))).getD 0⟩))
    else .error ("Conversion Error: could not cast amount value to DOUBLE")

/-- The synthetic period row substituted when no period table is provided. -/
def dummyPeriodRow : PeriodRow :=
  ⟨some 1, some ("No Period Data"), some 1, some 1, some 1,
   some ("2024-01-01"), some ("2024-12-31")⟩

def normalize_accountingperiod_table (t? : Option RawTable) : Except String (List PeriodRow) :=
  match t? with
  | none => .ok [dummyPeriodRow]
  | some t =>
    let idc := get_column t.cols ["id", "period_id"]
    let namec := get_column t.cols ["periodname", "period_name", "name"]
    let yearc := get_column t.cols ["fiscalyear", "year"]
    let quarterc := get_column t.cols ["quarter", "fiscalquarter"]
    let monthc := get_column t.cols ["month", "fiscalmonth"]
    let startc := get_column t.cols ["startdate", "start_date"]
    let endc := get_column t.cols ["enddate", "end_date"]
    let hasYear := t.cols.contains yearc
    let hasQuarter := t.cols.contains quarterc
    let hasMonth := t.cols.contains monthc
    let hasStart := t.cols.contains startc
    let hasEnd := t.cols.contains endc
    if t.cols.contains idc && t.cols.contains namec then
      .ok ((t.rows.filter (fun r => (t.cell r idc).isSome)).map (fun r =>
        ⟨tryCastInt (t.cell r idc), t.cell r namec,
         if hasYear then tryCastInt (t.cell r yearc) else none,
         if hasQuarter then tryCastInt (t.cell r quarterc) else none,
         if hasMonth then tryCastInt (t.cell r monthc) else none,
         if hasStart then tryCastDate (t.cell r startc) else none,
         if hasEnd then tryCastDate (t.cell r endc) else none⟩))
    else .error ("Binder Error: referenced column not found in accountingperiod table")

/-! ### The relational store and the base-relation query (transforms.py) -/

structure Database where
  account : List AccountRow
  subsidiary : List SubsidiaryRow
  transaction_header : List TransactionHeaderRow
  transactionline : List TransactionLineRow
  tal : List TalRow
  accountingperiod : List PeriodRow
deriving DecidableEq

/-- SQL equality on nullable keys: NULL compared with anything is not true. -/
def optEq (a b : Option ℤ) : Bool :=
  match a, b with
  | some x, some y => x == y
  | _, _ => false

/-- LEFT JOIN match list for one left row: the matching right rows, or a
single NULL row when none matches. -/
def optMatches {β : Type} (ts : List β) (p : β → Bool) : List (Option β) :=
  match ts.filter p with
  | [] => [none]
  | z :: zs => (z :: zs).map (fun y => some y)

/-- One fully joined (pre-projection) record of the base query. -/
structure Joined where
  tal : TalRow
  acct : Option AccountRow
  tl : TransactionLineRow
  sub : Option SubsidiaryRow
  th : TransactionHeaderRow
  ap : Option PeriodRow
deriving DecidableEq

/-- All joined records produced by one accounting line, following the FROM
clause order: LEFT JOIN account, INNER JOIN transactionline, LEFT JOIN
subsidiary, INNER JOIN transaction_header, LEFT JOIN accountingperiod. -/
def rowsForLine (db : Database) (t : TalRow) : List Joined :=
  (optMatches db.account (fun a => optEq t.account a.id)).flatMap (fun a? =>
    (db.transactionline.filter (fun tl => optEq t.transaction tl.transaction)).flatMap (fun tl =>
      (optMatches db.subsidiary (fun s => optEq tl.subsidiary s.id)).flatMap (fun s? =>
        (db.transaction_header.filter (fun th => optEq t.transaction th.id)).flatMap (fun th =>
          (optMatches db.accountingperiod (fun p => optEq th.postingperiod p.id)).map (fun ap? =>
            ⟨t, a?, tl, s?, th, ap?⟩)))))

def joinedRows (db : Database) : List Joined :=
  db.tal.flatMap (rowsForLine db)

/-- The filter model: `none` means the key is omitted, `some []` an empty
selection; both are inactive in build_filter_where_clause. -/
structure Filters where
  exclude_nonposting : Bool
  subsidiaries : Option (List ℤ)
  periods : Option (List String)
  departments : Option (List ℤ)
  account_types : Option (List String)
deriving DecidableEq

def noFilters : Filters := ⟨false, none, none, none, none⟩

/-- `v IN (set)` for an integer dimension; inactive filters always pass. -/
def inCondInt (f : Option (List ℤ)) (v : Option ℤ) : Bool :=
  match f with
  | some (x :: xs) =>
    match v with
    | some n => (x :: xs).contains n
    | none => false
  | _ => true

/-- `v IN (set)` for a string dimension; inactive filters always pass. -/
def inCondStr (f : Option (List String)) (v : Option String) : Bool :=
  match f with
  | some (x :: xs) =>
    match v with
    | some s => (x :: xs).contains s
    | none => false
  | _ => true

/-- The conjunctive WHERE clause of build_filter_where_clause, evaluated on a
joined record. -/
def rowPasses (f : Filters) (j : Joined) : Bool :=
  (if f.exclude_nonposting then !j.th.nonposting else true)
    && inCondInt f.subsidiaries j.tl.subsidiary
    && inCondStr f.periods (j.ap.bind (fun p => p.periodname))
    && inCondInt f.departments j.tl.department
    && inCondStr f.account_types (j.acct.bind (fun a => a.accttype))

/-- One output row of the base query of get_base_query_with_filters. -/
structure BaseRow where
  subsidiary_name : String
  subsidiary_id : Option ℤ
  account_name : Option String
  account_id : Option ℤ
  account_type : String
  period_name : Option String
  fiscal_year : Option ℤ
  fiscal_quarter : Option ℤ
  fiscal_month : Option ℤ
  transaction_date : Option String
  department_id : Option ℤ
  amount : ℚ
deriving DecidableEq

/-- The SELECT projection, with the COALESCE display fallbacks. -/
def project (j : Joined) : BaseRow :=
  ⟨(j.sub.bind (fun s => s.name)).getD ("Unknown Subsidiary"),
   j.sub.bind (fun s => s.id),
   (j.acct.bind (fun a => a.fullname)) <|>
     (j.tal.account.map (fun k => ("Unknown Account [") ++ toString k ++ ("]"))),
   j.acct.bind (fun a => a.id),
   (j.acct.bind (fun a => a.accttype)).getD ("Unknown"),
   j.ap.bind (fun p => p.periodname),
   j.ap.bind (fun p => p.fiscalyear),
   j.ap.bind (fun p => p.quarter),
   j.ap.bind (fun p => p.month),
   j.th.trandate,
   j.tl.department,
   j.tal.amount⟩

def base_relation (db : Database) (f : Filters) : List BaseRow :=
  ((joinedRows db).filter (rowPasses f)).map project

/-! ### Rounding (DuckDB ROUND and Python round) -/

/-- DuckDB ROUND(x, 2): half away from zero at two decimals. -/
def duckRound2 (q : ℚ) : ℚ :=
  if 0 ≤ q then ((⌊q * 100 + 1 / 2⌋ : ℤ) : ℚ) / 100
  else -(((⌊-(q * 100) + 1 / 2⌋ : ℤ) : ℚ) / 100)

/-- Python round(x): half-even rounding to the nearest integer. -/
def roundHalfEven (q : ℚ) : ℤ :=
  if q - (⌊q⌋ : ℚ) = 1 / 2 then (if ⌊q⌋ % 2 = 0 then ⌊q⌋ else ⌊q⌋ + 1)
  else round q

/-- Python round(x, 2). -/
def pyRound2 (q : ℚ) : ℚ := ((roundHalfEven (q * 100) : ℤ) : ℚ) / 100

/-! ### Report generators (trial_balance.py, p_and_l.py, balance_sheet.py) -/

structure ReportRow where
  subsidiary_name : String
  account_name : Option String
  account_type : String
  total_amount : ℚ
deriving DecidableEq

def keyOf (b : BaseRow) : String × Option String × String :=
  (b.subsidiary_name, b.account_name, b.account_type)

/-- GROUP BY (subsidiary_name, account_name, account_type) with
ROUND(SUM(amount), 2); output order is not tracked. -/
def groupSum (rows : List BaseRow) : List ReportRow :=
  ((rows.map keyOf).dedup).map (fun k =>
    ⟨k.1, k.2.1, k.2.2,
     duckRound2 (((rows.filter (fun b => decide (keyOf b = k))).map (fun b => b.amount)).sum)⟩)

def generate_trial_balance (db : Database) (f : Filters) : List ReportRow :=
  groupSum (base_relation db f)

def pnl_account_types : List String :=
  ["Income", "OthIncome", "Expense", "COGS", "OthExpense", "DeferExpense"]

def bs_account_types : List String :=
  ["Bank", "AcctRec", "OthCurrAsset", "FixedAsset", "OthAsset",
   "AcctPay", "OthCurrLiab", "LongTermLiab", "Equity"]

def generate_pnl (db : Database) (f : Filters) : List ReportRow :=
  groupSum ((base_relation db f).filter (fun b => pnl_account_types.contains b.account_type))

def generate_balance_sheet (db : Database) (f : Filters) : List ReportRow :=
  groupSum ((base_relation db f).filter (fun b => bs_account_types.contains b.account_type))

structure YearRow where
  fiscal_year : Option ℤ
  account_type : String
  total_amount : ℚ
deriving DecidableEq

/-- generate_pnl_by_period with period_type = year. -/
def generate_pnl_by_year (db : Database) (f : Filters) : List YearRow :=
  let rows := (base_relation db f).filter (fun b => pnl_account_types.contains b.account_type)
  ((rows.map (fun b => (b.fiscal_year, b.account_type))).dedup).map (fun k =>
    ⟨k.1, k.2,
     duckRound2 (((rows.filter (fun b => decide ((b.fiscal_year, b.account_type) = k))).map
       (fun b => b.amount)).sum)⟩)

/-! ### Totals and validations (calculations.py) -/

def asset_types : List String := ["Bank", "AcctRec", "OthCurrAsset", "FixedAsset", "OthAsset"]

def liability_types : List String := ["AcctPay", "OthCurrLiab", "LongTermLiab"]

def equity_types : List String := ["Equity"]

def revenue_types : List String := ["Income", "OthIncome"]

def expense_types : List String := ["Expense", "COGS", "OthExpense", "DeferExpense"]

structure BSTotals where
  assets : ℚ
  liabilities : ℚ
  equity : ℚ
  balance_check : ℚ
deriving DecidableEq

def calculate_balance_sheet_totals (bs : List ReportRow) : BSTotals :=
  let assets := ((bs.filter (fun r => asset_types.contains r.account_type)).map
    (fun r => r.total_amount)).sum
  let liabilities := ((bs.filter (fun r => liability_types.contains r.account_type)).map
    (fun r => r.total_amount)).sum
  let equity := ((bs.filter (fun r => equity_types.contains r.account_type)).map
    (fun r => r.total_amount)).sum
  ⟨assets, liabilities, equity, pyRound2 (assets - (liabilities + equity))⟩

/-- The display tier of display_balance_sheet_metrics. -/
def balance_status (check : ℚ) : String :=
  if |check| < 1 / 100 then ("balanced")
  else if |check| < 100 then ("minor variance")
  else ("out of balance")

structure PnlTotals where
  revenue : ℚ
  expenses : ℚ
  net_income : ℚ
deriving DecidableEq

def calculate_pnl_totals (pnl : List ReportRow) : PnlTotals :=
  let revenue := ((pnl.filter (fun r => revenue_types.contains r.account_type)).map
    (fun r => r.total_amount)).sum
  let expenses := ((pnl.filter (fun r => expense_types.contains r.account_type)).map
    (fun r => r.total_amount)).sum
  ⟨|revenue|, |expenses|, revenue + expenses⟩

/-- null_accounts of run_data_validations: COUNT(*) over
tal LEFT JOIN account WHERE a.id IS NULL. -/
def nullAccounts (db : Database) : ℕ :=
  (db.tal.flatMap (fun t =>
    (optMatches db.account (fun a => optEq t.account a.id)).map (fun a? => (t, a?)))).countP
    (fun p => (p.2.bind (fun a => a.id)).isNone)

end NSFV

namespace NSFV

/-! ### Concrete example inputs used by witnesses and counterexamples -/

/-- Is an Except value an error (a raised exception)? -/
def isError {ε α : Type} (e : Except ε α) : Bool :=
  match e with
  | .error _ => true
  | .ok _ => false

/-- A transaction table with a `nonposting` column valued TRUE. -/
def tblNonpostingTrue : RawTable := ⟨["id", "nonposting"], [[some ("1"), some ("TRUE")]]⟩

/-- A transaction table with a `posting` column valued TRUE. -/
def tblPostingTrue : RawTable := ⟨["id", "posting"], [[some ("1"), some ("TRUE")]]⟩

/-- An account table whose id cell holds a non-null unparseable value. -/
def tblCorruptAccountId : RawTable :=
  ⟨["id", "fullname", "accttype"], [[some ("abc"), some ("X"), some ("Bank")]]⟩

end NSFV

namespace NSFV

/-- Signed sum of the revenue-type report rows (the revenue local of
calculate_pnl_totals). -/
def pnlRevenueSum (pnl : List ReportRow) : ℚ :=
  ((pnl.filter (fun r => revenue_types.contains r.account_type)).map
    (fun r => r.total_amount)).sum

/-- Signed sum of the expense-type report rows (the expenses local of
calculate_pnl_totals). -/
def pnlExpenseSum (pnl : List ReportRow) : ℚ :=
  ((pnl.filter (fun r => expense_types.contains r.account_type)).map
    (fun r => r.total_amount)).sum

/-- A one-account, one-line dataset whose single accounting line resolves
everywhere. -/
def exDb1 : Database :=
  ⟨[⟨some 1, some ("Cash"), some ("Bank")⟩],
   [⟨some 1, some ("S")⟩],
   [⟨some 1, none, none, false⟩],
   [⟨some 1, some 1, none⟩],
   [⟨some 1, some 1, (1000 : ℚ)⟩],
   [dummyPeriodRow]⟩

/-- The single joined record of exDb1. -/
def exJoined1 : Joined :=
  ⟨⟨some 1, some 1, (1000 : ℚ)⟩, some ⟨some 1, some ("Cash"), some ("Bank")⟩,
   ⟨some 1, some 1, none⟩, some ⟨some 1, some ("S")⟩, ⟨some 1, none, none, false⟩, none⟩

/-- A dataset whose single accounting line carries a null (unparseable)
account key. -/
def exDbNullAcct : Database :=
  ⟨[], [], [⟨some 1, none, none, false⟩], [⟨some 1, none, none⟩],
   [⟨some 1, none, (7 : ℚ)⟩], [dummyPeriodRow]⟩

/-- The single joined record of exDbNullAcct. -/
def exJoinedNull : Joined :=
  ⟨⟨some 1, none, (7 : ℚ)⟩, none, ⟨some 1, none, none⟩, none,
   ⟨some 1, none, none, false⟩, none⟩

/-- Balance-sheet report rows totalling assets 1000, liabilities 400,
equity 600. -/
def exBS : List ReportRow :=
  [⟨("S"), some ("A"), ("Bank"), (1000 : ℚ)⟩,
   ⟨("S"), some ("L"), ("AcctPay"), (400 : ℚ)⟩,
   ⟨("S"), some ("E"), ("Equity"), (600 : ℚ)⟩]

/-- P-and-L report rows: one Income line of -500 and one Expense line of 300. -/
def exPnl : List ReportRow :=
  [⟨("S"), some ("Sales"), ("Income"), (-500 : ℚ)⟩,
   ⟨("S"), some ("Rent"), ("Expense"), (300 : ℚ)⟩]

/-- A dataset with a single Income accounting line of -500. -/
def exDbPnl : Database :=
  ⟨[⟨some 1, some ("Sales"), some ("Income")⟩],
   [⟨some 1, some ("S")⟩],
   [⟨some 1, none, none, false⟩],
   [⟨some 1, some 1, none⟩],
   [⟨some 1, some 1, (-500 : ℚ)⟩],
   [dummyPeriodRow]⟩

/-- A tal table with all required columns present but an unparseable amount. -/
def tblTalBadAmount : RawTable :=
  ⟨["transaction", "account", "amount"], [[some ("1"), some ("2"), some ("abc")]]⟩

/-- A tal table with no transaction column under any alias. -/
def tblTalNoTrx : RawTable := ⟨["account", "amount"], [[some ("2"), some ("5")]]⟩

/-- No period table supplied, but a transaction pointing at period 5:
its base row keeps null period attributes. -/
def dbC7x : Database :=
  ⟨[], [], [⟨some 1, none, some 5, false⟩], [⟨some 1, none, none⟩],
   [⟨some 1, some 1, (5 : ℚ)⟩], [dummyPeriodRow]⟩

/-- No period table supplied and a transaction pointing at period 1: its
base row joins the synthetic period row. -/
def dbC7w : Database :=
  ⟨[⟨some 1, some ("Sales"), some ("Income")⟩],
   [⟨some 1, some ("S")⟩],
   [⟨some 1, none, some 1, false⟩],
   [⟨some 1, some 1, none⟩],
   [⟨some 1, some 1, (-500 : ℚ)⟩],
   [dummyPeriodRow]⟩

/-- The single joined record of dbC7w. -/
def jC7w : Joined :=
  ⟨⟨some 1, some 1, (-500 : ℚ)⟩, some ⟨some 1, some ("Sales"), some ("Income")⟩,
   ⟨some 1, some 1, none⟩, some ⟨some 1, some ("S")⟩, ⟨some 1, none, some 1, false⟩,
   some dummyPeriodRow⟩

/-- A dataset with one accounting line referencing the nonexistent account
id 7 (the chart only has account id 2). -/
def exDbOrphan : Database :=
  ⟨[⟨some 2, some ("Other"), some ("Bank")⟩], [], [⟨some 1, none, none, false⟩],
   [⟨some 1, none, none⟩], [⟨some 1, some 7, (5 : ℚ)⟩], [dummyPeriodRow]⟩

/-- The single joined record of exDbOrphan. -/
def jOrphan : Joined :=
  ⟨⟨some 1, some 7, (5 : ℚ)⟩, none, ⟨some 1, none, none⟩, none,
   ⟨some 1, none, none, false⟩, none⟩

/-- A dataset whose single accounting line resolves to a header but whose
transaction has no transaction lines at all. -/
def dbNoLines : Database :=
  ⟨[], [], [⟨some 1, none, none, false⟩], [], [⟨some 1, some 1, (5 : ℚ)⟩], [dummyPeriodRow]⟩

/-- A dataset whose transaction has two transaction lines. -/
def dbTwoLines : Database :=
  ⟨[⟨some 1, some ("Cash"), some ("Bank")⟩],
   [⟨some 1, some ("S")⟩],
   [⟨some 1, none, none, false⟩],
   [⟨some 1, some 1, none⟩, ⟨some 1, none, some 2⟩],
   [⟨some 1, some 1, (5 : ℚ)⟩],
   [dummyPeriodRow]⟩

/-! ### Basic lemmas about the join combinators -/

lemma optEq_true_iff {a b : Option ℤ} : optEq a b = true ↔ ∃ n : ℤ, a = some n ∧ b = some n := by
  cases a <;> cases b <;> simp [optEq]
  exact eq_comm

lemma optEq_isSome_left {a b : Option ℤ} (h : optEq a b = true) : a.isSome = true := by
  rcases optEq_true_iff.mp h with ⟨n, h1, _⟩
  simp [h1]

lemma optEq_isSome_right {a b : Option ℤ} (h : optEq a b = true) : b.isSome = true := by
  rcases optEq_true_iff.mp h with ⟨n, _, h2⟩
  simp [h2]

lemma optEq_none_left {b : Option ℤ} : optEq none b = false := by
  cases b <;> simp [optEq]

lemma mem_optMatches {β : Type} {ts : List β} {p : β → Bool} {x : Option β} :
    x ∈ optMatches ts p ↔
      (x = none ∧ ts.filter p = []) ∨ (∃ y, x = some y ∧ y ∈ ts.filter p) := by
  rcases h : ts.filter p with _ | ⟨z, zs⟩
  · simp [optMatches, h]
  · simp only [optMatches, h, List.mem_map]
    constructor
    · rintro ⟨y, hy, rfl⟩
      exact Or.inr ⟨y, rfl, hy⟩
    · rintro (⟨-, hcontra⟩ | ⟨y, rfl, hy⟩)
      · exact (List.cons_ne_nil z zs hcontra).elim
      · exact ⟨y, hy, rfl⟩

lemma optMatches_of_no_match {β : Type} {ts : List β} {p : β → Bool}
    (h : ts.filter p = []) : optMatches ts p = [none] := by
  simp [optMatches, h]

lemma exists_mem_optMatches {β : Type} (ts : List β) (p : β → Bool) :
    ∃ x, x ∈ optMatches ts p := by
  rcases h : ts.filter p with _ | ⟨z, zs⟩
  · exact ⟨none, by simp [optMatches, h]⟩
  · exact ⟨some z, by simp [optMatches, h]⟩

lemma mem_rowsForLine {db : Database} {t : TalRow} {j : Joined} :
    j ∈ rowsForLine db t ↔
      j.tal = t
        ∧ j.acct ∈ optMatches db.account (fun a => optEq t.account a.id)
        ∧ j.tl ∈ db.transactionline.filter (fun tl => optEq t.transaction tl.transaction)
        ∧ j.sub ∈ optMatches db.subsidiary (fun s => optEq j.tl.subsidiary s.id)
        ∧ j.th ∈ db.transaction_header.filter (fun th => optEq t.transaction th.id)
        ∧ j.ap ∈ optMatches db.accountingperiod (fun p => optEq j.th.postingperiod p.id) := by
  obtain ⟨jt, ja, jtl, js, jth, jap⟩ := j
  simp only [rowsForLine, List.mem_flatMap, List.mem_map]
  constructor
  · rintro ⟨a?, ha, tl, htl, s?, hs, th, hth, ap?, hap, heq⟩
    cases heq
    exact ⟨rfl, ha, htl, hs, hth, hap⟩
  · rintro ⟨rfl, ha, htl, hs, hth, hap⟩
    exact ⟨ja, ha, jtl, htl, js, hs, jth, hth, jap, hap, rfl⟩

lemma mem_joinedRows {db : Database} {j : Joined} :
    j ∈ joinedRows db ↔ j.tal ∈ db.tal ∧ j ∈ rowsForLine db j.tal := by
  simp only [joinedRows, List.mem_flatMap]
  constructor
  · rintro ⟨t, ht, hj⟩
    have h1 := (mem_rowsForLine.mp hj).1
    subst h1
    exact ⟨ht, hj⟩
  · rintro ⟨ht, hj⟩
    exact ⟨j.tal, ht, hj⟩

lemma rowPasses_noFilters (j : Joined) : rowPasses noFilters j = true := rfl

/-! ### Rounding lemmas -/

lemma roundHalfEven_intCast (m : ℤ) : roundHalfEven ((m : ℚ)) = m := by
  have h0 : ((m : ℚ)) - ((⌊((m : ℚ))⌋ : ℤ) : ℚ) = 0 := by
    rw [Int.floor_intCast]
    ring
  unfold roundHalfEven
  rw [h0, if_neg (by norm_num), round_intCast]

lemma pyRound2_intCast (n : ℤ) : pyRound2 ((n : ℚ)) = ((n : ℚ)) := by
  unfold pyRound2
  have h : ((n : ℚ)) * 100 = (((n * 100 : ℤ)) : ℚ) := by push_cast; ring
  rw [h, roundHalfEven_intCast]
  push_cast
  field_simp

lemma floor_half : ⌊((1 : ℚ) / 2)⌋ = 0 := by
  rw [Int.floor_eq_zero_iff]
  constructor <;> norm_num

lemma duckRound2_intCast (n : ℤ) : duckRound2 ((n : ℚ)) = ((n : ℚ)) := by
  unfold duckRound2
  rcases le_or_lt 0 ((n : ℚ)) with h | h
  · rw [if_pos h]
    have h2 : ((n : ℚ)) * 100 + 1 / 2 = (((n * 100 : ℤ)) : ℚ) + 1 / 2 := by push_cast; ring
    rw [h2, Int.floor_int_add, floor_half]
    push_cast
    field_simp
  · rw [if_neg (not_le.mpr h)]
    have h2 : -(((n : ℚ)) * 100) + 1 / 2 = (((-n * 100 : ℤ)) : ℚ) + 1 / 2 := by push_cast; ring
    rw [h2, Int.floor_int_add, floor_half]
    push_cast
    field_simp

/-! ### Grouping lemmas -/

lemma groupSum_sound {rows : List BaseRow} {r : ReportRow} (h : r ∈ groupSum rows) :
    ∃ b ∈ rows, b.subsidiary_name = r.subsidiary_name ∧ b.account_name = r.account_name
      ∧ b.account_type = r.account_type := by
  simp only [groupSum, List.mem_map] at h
  obtain ⟨k, hk, rfl⟩ := h
  rw [List.mem_dedup, List.mem_map] at hk
  obtain ⟨b, hb, rfl⟩ := hk
  exact ⟨b, hb, rfl, rfl, rfl⟩

lemma groupSum_complete {rows : List BaseRow} {b : BaseRow} (h : b ∈ rows) :
    ∃ r ∈ groupSum rows, r.subsidiary_name = b.subsidiary_name ∧ r.account_name = b.account_name
      ∧ r.account_type = b.account_type := by
  have hk : keyOf b ∈ (rows.map keyOf).dedup :=
    List.mem_dedup.mpr (List.mem_map_of_mem keyOf h)
  refine ⟨_, List.mem_map_of_mem _ hk, rfl, rfl, rfl⟩

/-! ### Claim theorems -/

/-- C1. The claim reads the third derivation case off the comments in
normalize_transaction_table: a column that denotes non-posting
directly (such as one named nonposting) should store the parsed boolean,
so a nonposting column valued TRUE should store nonposting = true.  The
code tests `posting in column_name`, and since the substring `posting`
also occurs in `nonposting`, the inverted branch is taken and the direct
branch is unreachable: the stored flag is NOT TRUE = false.  This theorem
evaluates the embedded normalizer at the failing input (and, for contrast,
at a posting column, where the inversion is intended). -/
theorem C1_nonposting_true_stores_false :
    normalize_transaction_table tblNonpostingTrue = .ok [⟨some 1, none, none, false⟩]
      ∧ normalize_transaction_table tblPostingTrue = .ok [⟨some 1, none, none, false⟩] :=
  ⟨rfl, rfl⟩

/-- C9. An empty selection for any filter dimension (subsidiaries, periods,
departments, account_types) yields exactly the same base relation as
omitting that dimension; hence every report built on it is unchanged. -/
theorem C9_empty_filter_no_restriction :
    ∀ (db : Database) (f : Filters),
      base_relation db ⟨f.exclude_nonposting, none, f.periods, f.departments, f.account_types⟩
          = base_relation db
            ⟨f.exclude_nonposting, some [], f.periods, f.departments, f.account_types⟩
        ∧ base_relation db ⟨f.exclude_nonposting, f.subsidiaries, none, f.departments,
              f.account_types⟩
          = base_relation db ⟨f.exclude_nonposting, f.subsidiaries, some [], f.departments,
              f.account_types⟩
        ∧ base_relation db ⟨f.exclude_nonposting, f.subsidiaries, f.periods, none,
              f.account_types⟩
          = base_relation db ⟨f.exclude_nonposting, f.subsidiaries, f.periods, some [],
              f.account_types⟩
        ∧ base_relation db ⟨f.exclude_nonposting, f.subsidiaries, f.periods, f.departments, none⟩
          = base_relation db ⟨f.exclude_nonposting, f.subsidiaries, f.periods, f.departments,
              some []⟩
        ∧ (generate_trial_balance db ⟨f.exclude_nonposting, f.subsidiaries, f.periods,
              f.departments, none⟩).length
          = (generate_trial_balance db ⟨f.exclude_nonposting, f.subsidiaries, f.periods,
              f.departments, some []⟩).length := by
  intro db f
  exact ⟨rfl, rfl, rfl, rfl, rfl⟩

end NSFV

namespace NSFV

/-- C3 counterexample. An account row whose id cell holds the non-null,
non-integer value abc is NOT excluded at normalization time: the WHERE
clause only tests the raw cell for NULL, so the row is retained with its
required key coerced to null, contradicting the claim that no row with a
null or corrupt required key appears in any normalized table. -/
theorem C3_counterexample_corrupt_key_retained :
    normalize_account_table tblCorruptAccountId
      = .ok [⟨none, some ("X"), some ("Bank")⟩] := rfl

/-- C3 (amended). Rows whose required identifier cell is null are excluded
at normalization time (the normalized table has exactly one row per raw row
with a non-null key cell); rows with a present but unparseable identifier
are retained with the key coerced to null; nevertheless no row with a null
transaction key ever reaches the base relation (the inner joins on the
transaction header and transaction line require non-null parsed keys), and
a null account key never matches any Account row. -/
theorem C3_required_key_handling :
    (∀ (t : RawTable) (rows : List AccountRow),
        normalize_account_table t = .ok rows →
          rows.length = t.rows.countP (fun r =>
            (t.cell r (get_column t.cols ["id", "account_id"])).isSome))
      ∧ (∀ (db : Database) (j : Joined), j ∈ joinedRows db →
          j.tal.transaction.isSome = true ∧ j.th.id.isSome = true
            ∧ j.tl.transaction.isSome = true)
      ∧ (∀ (db : Database) (j : Joined), j ∈ joinedRows db → j.tal.account = none →
          j.acct = none) := by
  refine ⟨?_, ?_, ?_⟩
  · intro t rows h
    simp only [normalize_account_table] at h
    split at h
    · injection h with h2
      subst h2
      simp [List.countP_eq_length_filter]
    · exact Except.noConfusion h
  · intro db j hj
    obtain ⟨-, hr⟩ := mem_joinedRows.mp hj
    obtain ⟨-, -, htl, -, hth, -⟩ := mem_rowsForLine.mp hr
    have h1 := (List.mem_filter.mp hth).2
    have h2 := (List.mem_filter.mp htl).2
    exact ⟨optEq_isSome_left h1, optEq_isSome_right h1, optEq_isSome_right h2⟩
  · intro db j hj hacc
    obtain ⟨-, hr⟩ := mem_joinedRows.mp hj
    have ha := (mem_rowsForLine.mp hr).2.1
    rw [hacc] at ha
    rw [optMatches_of_no_match (List.filter_eq_nil_iff.mpr (fun a _ => by
      simp [optEq_none_left]))] at ha
    exact List.mem_singleton.mp ha

/-- C3 witness: the amended statement applied at concrete inputs. -/
theorem C3_required_key_handling_witness :
    ([(⟨none, some ("X"), some ("Bank")⟩ : AccountRow)]).length
        = tblCorruptAccountId.rows.countP (fun r =>
            (tblCorruptAccountId.cell r
              (get_column tblCorruptAccountId.cols ["id", "account_id"])).isSome)
      ∧ exJoined1.tal.transaction.isSome = true
      ∧ exJoinedNull.acct = none := by
  have hm1 : exJoined1 ∈ joinedRows exDb1 := List.Mem.head _
  have hm2 : exJoinedNull ∈ joinedRows exDbNullAcct := List.Mem.head _
  exact ⟨C3_required_key_handling.1 tblCorruptAccountId _ rfl,
    (C3_required_key_handling.2.1 exDb1 exJoined1 hm1).1,
    C3_required_key_handling.2.2 exDbNullAcct exJoinedNull hm2 rfl⟩

/-- C4. The Balance Sheet restricts to the nine balance-sheet account
types; its balance check equals assets minus (liabilities plus equity)
rounded to two decimals; and whenever the computed totals are assets 1000,
liabilities 400 and equity 600, the balance check is 0 and the display
status is balanced. -/
theorem C4_balance_sheet :
    (∀ (db : Database) (f : Filters) (r : ReportRow), r ∈ generate_balance_sheet db f →
        bs_account_types.contains r.account_type = true)
      ∧ (∀ bs : List ReportRow,
          (calculate_balance_sheet_totals bs).balance_check
            = pyRound2 ((calculate_balance_sheet_totals bs).assets
                - ((calculate_balance_sheet_totals bs).liabilities
                  + (calculate_balance_sheet_totals bs).equity)))
      ∧ (∀ bs : List ReportRow,
          (calculate_balance_sheet_totals bs).assets = 1000 →
          (calculate_balance_sheet_totals bs).liabilities = 400 →
          (calculate_balance_sheet_totals bs).equity = 600 →
            (calculate_balance_sheet_totals bs).balance_check = 0
              ∧ balance_status ((calculate_balance_sheet_totals bs).balance_check)
                  = ("balanced")) := by
  refine ⟨?_, fun bs => rfl, ?_⟩
  · intro db f r hr
    obtain ⟨b, hb, -, -, hty⟩ := groupSum_sound hr
    rw [← hty]
    exact (List.mem_filter.mp hb).2
  · intro bs h1 h2 h3
    have hbc : (calculate_balance_sheet_totals bs).balance_check = 0 := by
      rw [show (calculate_balance_sheet_totals bs).balance_check
          = pyRound2 ((calculate_balance_sheet_totals bs).assets
            - ((calculate_balance_sheet_totals bs).liabilities
              + (calculate_balance_sheet_totals bs).equity)) from rfl, h1, h2, h3]
      rw [show ((1000 : ℚ)) - (400 + 600) = (((0 : ℤ)) : ℚ) from by norm_num,
        pyRound2_intCast]
      norm_num
    refine ⟨hbc, ?_⟩
    rw [hbc]
    norm_num [balance_status]

/-- C4 witness: the theorem applied to a concrete report and dataset. -/
theorem C4_balance_sheet_witness :
    bs_account_types.contains
        ((⟨("S"), some ("Cash"), ("Bank"), duckRound2 (([((1000 : ℚ))]).sum)⟩ :
          ReportRow)).account_type = true
      ∧ (calculate_balance_sheet_totals exBS).balance_check = 0
      ∧ balance_status ((calculate_balance_sheet_totals exBS).balance_check)
          = ("balanced") := by
  have hmem : (⟨("S"), some ("Cash"), ("Bank"), duckRound2 (([((1000 : ℚ))]).sum)⟩ : ReportRow)
      ∈ generate_balance_sheet exDb1 noFilters := List.Mem.head _
  have h1 : (calculate_balance_sheet_totals exBS).assets = 1000 := by
    rw [show (calculate_balance_sheet_totals exBS).assets = ([((1000 : ℚ))]).sum from rfl,
      List.sum_singleton]
  have h2 : (calculate_balance_sheet_totals exBS).liabilities = 400 := by
    rw [show (calculate_balance_sheet_totals exBS).liabilities = ([((400 : ℚ))]).sum from rfl,
      List.sum_singleton]
  have h3 : (calculate_balance_sheet_totals exBS).equity = 600 := by
    rw [show (calculate_balance_sheet_totals exBS).equity = ([((600 : ℚ))]).sum from rfl,
      List.sum_singleton]
  exact ⟨C4_balance_sheet.1 exDb1 noFilters _ hmem,
    (C4_balance_sheet.2.2 exBS h1 h2 h3).1, (C4_balance_sheet.2.2 exBS h1 h2 h3).2⟩

/-- C5. The P-and-L restricts to the six income-statement account types;
its totals report the absolute values of the signed revenue and expense
sums while net income is their algebraic (signed) sum; in particular for
one Income line of -500 and one Expense line of 300 the reported revenue
is 500, expenses 300 and net income -200. -/
theorem C5_pnl_totals :
    (∀ (db : Database) (f : Filters) (r : ReportRow), r ∈ generate_pnl db f →
        pnl_account_types.contains r.account_type = true)
      ∧ (∀ pnl : List ReportRow,
          calculate_pnl_totals pnl
            = ⟨|pnlRevenueSum pnl|, |pnlExpenseSum pnl|,
               pnlRevenueSum pnl + pnlExpenseSum pnl⟩)
      ∧ calculate_pnl_totals exPnl = ⟨500, 300, -200⟩ := by
  refine ⟨?_, fun pnl => rfl, ?_⟩
  · intro db f r hr
    obtain ⟨b, hb, -, -, hty⟩ := groupSum_sound hr
    rw [← hty]
    exact (List.mem_filter.mp hb).2
  · have h1 : pnlRevenueSum exPnl = -500 := by
      rw [show pnlRevenueSum exPnl = ([((-500 : ℚ))]).sum from rfl, List.sum_singleton]
    have h2 : pnlExpenseSum exPnl = 300 := by
      rw [show pnlExpenseSum exPnl = ([((300 : ℚ))]).sum from rfl, List.sum_singleton]
    rw [show calculate_pnl_totals exPnl
        = ⟨|pnlRevenueSum exPnl|, |pnlExpenseSum exPnl|,
           pnlRevenueSum exPnl + pnlExpenseSum exPnl⟩ from rfl, h1, h2]
    rw [abs_of_nonpos (by norm_num), abs_of_nonneg (by norm_num)]
    norm_num

/-- C5 witness: the theorem applied to a concrete dataset and report. -/
theorem C5_pnl_totals_witness :
    pnl_account_types.contains
        ((⟨("S"), some ("Sales"), ("Income"), duckRound2 (([((-500 : ℚ))]).sum)⟩ :
          ReportRow)).account_type = true
      ∧ (calculate_pnl_totals exPnl).net_income = -200 := by
  have hmem : (⟨("S"), some ("Sales"), ("Income"), duckRound2 (([((-500 : ℚ))]).sum)⟩ :
      ReportRow) ∈ generate_pnl exDbPnl noFilters := List.Mem.head _
  refine ⟨C5_pnl_totals.1 exDbPnl noFilters _ hmem, ?_⟩
  rw [C5_pnl_totals.2.2]

end NSFV

namespace NSFV

lemma optEq_some_iff {a : Option ℤ} {k : ℤ} : optEq a (some k) = true ↔ a = some k := by
  cases a <;> simp [optEq]

/-- With only the synthetic period row in the store, a joined record carries
that row exactly when its header posting period is 1, and otherwise null. -/
lemma ap_of_dummy_period {db : Database} {j : Joined}
    (hdb : db.accountingperiod = [dummyPeriodRow]) (hj : j ∈ joinedRows db) :
    (j.ap = some dummyPeriodRow ↔ j.th.postingperiod = some 1)
      ∧ (j.ap = some dummyPeriodRow ∨ j.ap = none) := by
  obtain ⟨-, hr⟩ := mem_joinedRows.mp hj
  have hap := (mem_rowsForLine.mp hr).2.2.2.2.2
  rw [hdb] at hap
  cases hc : optEq j.th.postingperiod (some 1) with
  | true =>
    have hc2 : optEq j.th.postingperiod dummyPeriodRow.id = true := hc
    have hfil : ([dummyPeriodRow]).filter (fun p => optEq j.th.postingperiod p.id)
        = [dummyPeriodRow] := by
      simp [List.filter_cons, hc2]
    rw [show optMatches ([dummyPeriodRow]) (fun p => optEq j.th.postingperiod p.id)
        = [some dummyPeriodRow] from by simp [optMatches, hfil]] at hap
    have hj2 := List.mem_singleton.mp hap
    exact ⟨⟨fun _ => optEq_some_iff.mp hc, fun _ => hj2⟩, Or.inl hj2⟩
  | false =>
    have hc2 : optEq j.th.postingperiod dummyPeriodRow.id = false := hc
    have hfil : ([dummyPeriodRow]).filter (fun p => optEq j.th.postingperiod p.id) = [] := by
      simp [List.filter_cons, hc2]
    rw [optMatches_of_no_match hfil] at hap
    have hj2 := List.mem_singleton.mp hap
    refine ⟨⟨fun h => ?_, fun h => ?_⟩, Or.inr hj2⟩
    · rw [hj2] at h
      exact Option.noConfusion h
    · rw [h] at hc
      rw [show optEq (some 1) (some 1) = true from rfl] at hc
      exact Bool.noConfusion hc

/-- C6 counterexample. With all three required columns present, a non-null
amount value that does not parse as a number makes the normalization raise
a conversion error, contradicting the claim that normalization never
raises when the required columns are present. -/
theorem C6_counterexample_amount_cast_raises :
    normalize_transactionaccountingline_table tblTalBadAmount
        = .error ("Conversion Error: could not cast amount value to DOUBLE")
      ∧ tblTalBadAmount.cols = ["transaction", "account", "amount"] :=
  ⟨rfl, rfl⟩

/-- C6 (amended).  Accounting-line normalization raises if and only if a
required column (transaction, account, amount) cannot be resolved from any
alias, or some retained row carries a non-null amount value that fails to
parse as a number (the amount uses a strict cast); when the transaction
column is missing, the error message names the missing field and lists the
available column names.  Identifier cell defects never raise: they are
coerced to null. -/
theorem C6_tal_fatal_errors :
    (∀ t : RawTable,
        isError (normalize_transactionaccountingline_table t) = true ↔
          (t.cols.contains (get_column t.cols ["transaction", "transaction_id"]) = false
            ∨ t.cols.contains (get_column t.cols ["account", "account_id"]) = false
            ∨ t.cols.contains ("amount") = false
            ∨ ∃ r ∈ keptTalRows t, castRat (t.cell r ("amount")) = none))
      ∧ (∀ t : RawTable,
          t.cols.contains (get_column t.cols ["transaction", "transaction_id"]) = false →
            normalize_transactionaccountingline_table t
              = .error (("Transaction column not found in transactionaccountingline. ")
                  ++ (("Available columns: ") ++ String.intercalate (", ") t.cols))) := by
  constructor
  · intro t
    simp only [normalize_transactionaccountingline_table]
    cases h1 : t.cols.contains (get_column t.cols ["transaction", "transaction_id"]) with
    | false =>
      rw [if_pos (show (!false) = true from rfl)]
      exact iff_of_true rfl (Or.inl rfl)
    | true =>
      rw [if_neg (show ¬((!true) = true) from fun hh => Bool.noConfusion hh)]
      cases h2 : t.cols.contains (get_column t.cols ["account", "account_id"]) with
      | false =>
        rw [if_pos (show (!false) = true from rfl)]
        exact iff_of_true rfl (Or.inr (Or.inl rfl))
      | true =>
        rw [if_neg (show ¬((!true) = true) from fun hh => Bool.noConfusion hh)]
        cases h3 : t.cols.contains ("amount") with
        | false =>
          rw [if_pos (show (!false) = true from rfl)]
          exact iff_of_true rfl (Or.inr (Or.inr (Or.inl rfl)))
        | true =>
          rw [if_neg (show ¬((!true) = true) from fun hh => Bool.noConfusion hh)]
          cases h4 : (keptTalRows t).all (fun r => (castRat (t.cell r ("amount"))).isSome) with
          | false =>
            rw [if_neg (show ¬(false = true) from fun hh => Bool.noConfusion hh)]
            refine iff_of_true rfl (Or.inr (Or.inr (Or.inr ?_)))
            have hnot : ¬ ∀ x ∈ keptTalRows t, (castRat (t.cell x ("amount"))).isSome = true := by
              intro hall
              have htrue := List.all_eq_true.mpr hall
              rw [h4] at htrue
              exact Bool.noConfusion htrue
            push_neg at hnot
            obtain ⟨r, hr, hfa⟩ := hnot
            exact ⟨r, hr, Option.not_isSome_iff_eq_none.mp (by simpa using hfa)⟩
          | true =>
            rw [if_pos (show true = true from rfl)]
            refine iff_of_false (fun hh => Bool.noConfusion hh) ?_
            rintro (hh | hh | hh | ⟨r, hr, hnone⟩)
            · exact Bool.noConfusion hh
            · exact Bool.noConfusion hh
            · exact Bool.noConfusion hh
            · have hiss := List.all_eq_true.mp h4 r hr
              rw [hnone] at hiss
              exact Bool.noConfusion hiss
  · intro t h
    simp only [normalize_transactionaccountingline_table, h]
    rfl

/-- C6 witness: the characterization applied at concrete inputs, one with a
missing transaction column and one with an unparseable amount value. -/
theorem C6_tal_fatal_errors_witness :
    normalize_transactionaccountingline_table tblTalNoTrx
        = .error (("Transaction column not found in transactionaccountingline. ")
            ++ (("Available columns: ") ++ String.intercalate (", ") tblTalNoTrx.cols))
      ∧ isError (normalize_transactionaccountingline_table tblTalBadAmount) = true := by
  constructor
  · exact C6_tal_fatal_errors.2 tblTalNoTrx rfl
  · refine (C6_tal_fatal_errors.1 tblTalBadAmount).mpr
      (Or.inr (Or.inr (Or.inr ⟨[some ("1"), some ("2"), some ("abc")], ?_, rfl⟩)))
    exact List.Mem.head _

/-- C7 counterexample. When no period table is supplied the synthetic row
is created, but a transaction whose posting period is 5 does not join to
it: its base-relation row has a null period name, contradicting the claim
that every transaction joins to the synthetic row and that period_name is
never null. -/
theorem C7_counterexample_period_null :
    normalize_accountingperiod_table none = .ok [dummyPeriodRow]
      ∧ dummyPeriodRow.periodname = some ("No Period Data")
      ∧ (base_relation dbC7x noFilters).map (fun b => b.period_name) = [none] :=
  ⟨rfl, rfl, rfl⟩

/-- C7 (amended). When no period input is supplied, a single synthetic
period row named No Period Data (id 1, fiscal year 1) is substituted; a
transaction joins to it exactly when its posting period id equals 1, and
every joined record carries either the synthetic row or null period
attributes (left-join, so no row is dropped); consequently the year-grouped
P-and-L buckets are contained in {year 1, null}. -/
theorem C7_missing_period_table :
    (normalize_accountingperiod_table none = .ok [dummyPeriodRow]
        ∧ dummyPeriodRow.periodname = some ("No Period Data"))
      ∧ (∀ (db : Database) (j : Joined), db.accountingperiod = [dummyPeriodRow] →
          j ∈ joinedRows db →
            (j.ap = some dummyPeriodRow ↔ j.th.postingperiod = some 1)
              ∧ (j.ap = some dummyPeriodRow ∨ j.ap = none))
      ∧ (∀ (db : Database) (f : Filters) (r : YearRow),
          db.accountingperiod = [dummyPeriodRow] → r ∈ generate_pnl_by_year db f →
            r.fiscal_year = some 1 ∨ r.fiscal_year = none) := by
  refine ⟨⟨rfl, rfl⟩, fun db j hdb hj => ap_of_dummy_period hdb hj, ?_⟩
  intro db f r hdb hr
  simp only [generate_pnl_by_year, List.mem_map] at hr
  obtain ⟨k, hk, rfl⟩ := hr
  rw [List.mem_dedup, List.mem_map] at hk
  obtain ⟨b, hb, rfl⟩ := hk
  have hbase := (List.mem_filter.mp hb).1
  simp only [base_relation, List.mem_map] at hbase
  obtain ⟨j, hj, rfl⟩ := hbase
  have hj2 := (List.mem_filter.mp hj).1
  rcases (ap_of_dummy_period hdb hj2).2 with h | h <;>
    simp [project, h, dummyPeriodRow]

/-- C7 witness: the amended statement applied at concrete datasets. -/
theorem C7_missing_period_table_witness :
    jC7w.ap = some dummyPeriodRow
      ∧ ((⟨some 1, ("Income"), duckRound2 (([((-500 : ℚ))]).sum)⟩ : YearRow).fiscal_year
            = some 1
          ∨ (⟨some 1, ("Income"), duckRound2 (([((-500 : ℚ))]).sum)⟩ : YearRow).fiscal_year
            = none) := by
  have hj : jC7w ∈ joinedRows dbC7w := List.Mem.head _
  have hr : (⟨some 1, ("Income"), duckRound2 (([((-500 : ℚ))]).sum)⟩ : YearRow)
      ∈ generate_pnl_by_year dbC7w noFilters := List.Mem.head _
  exact ⟨(C7_missing_period_table.2.1 dbC7w jC7w rfl hj).1.mpr rfl,
    C7_missing_period_table.2.2 dbC7w noFilters _ rfl hr⟩

end NSFV

namespace NSFV

/-- null_accounts counts exactly the accounting lines whose account key
matches no account row (orphans and null keys alike). -/
lemma nullAccounts_eq (db : Database) :
    nullAccounts db
      = db.tal.countP (fun t => db.account.all (fun a => !(optEq t.account a.id))) := by
  unfold nullAccounts
  suffices h : ∀ l : List TalRow,
      (l.flatMap (fun t => (optMatches db.account (fun a => optEq t.account a.id)).map
        (fun a? => (t, a?)))).countP (fun p => (p.2.bind (fun a => a.id)).isNone)
        = l.countP (fun t => db.account.all (fun a => !(optEq t.account a.id))) by
    exact h db.tal
  intro l
  induction l with
  | nil => rfl
  | cons t ts ih =>
    rw [List.flatMap_cons, List.countP_append, ih, List.countP_cons]
    cases hall : db.account.all (fun a => !(optEq t.account a.id)) with
    | true =>
      have hfil : db.account.filter (fun a => optEq t.account a.id) = [] := by
        rw [List.filter_eq_nil_iff]
        intro a ha
        have h2 := List.all_eq_true.mp hall a ha
        simp only [Bool.not_eq_true'] at h2
        simp [h2]
      rw [optMatches_of_no_match hfil]
      simp
      omega
    | false =>
      rcases hf : db.account.filter (fun a => optEq t.account a.id) with _ | ⟨z, zs⟩
      · exfalso
        have htrue : db.account.all (fun a => !(optEq t.account a.id)) = true := by
          rw [List.all_eq_true]
          intro a ha
          have hnotin := List.filter_eq_nil_iff.mp hf a ha
          simp only [Bool.not_eq_true] at hnotin
          simp [hnotin]
        rw [hall] at htrue
        exact Bool.noConfusion htrue
      · rw [show optMatches db.account (fun a => optEq t.account a.id) = (z :: zs).map some
          from by simp [optMatches, hf]]
        have hcount : (((z :: zs).map some).map (fun a? => ((t, a?) :
            TalRow × Option AccountRow))).countP
            (fun p => (p.2.bind (fun a => a.id)).isNone) = 0 := by
          rw [List.countP_eq_zero]
          intro p hp
          simp only [List.map_map, List.mem_map, Function.comp] at hp
          obtain ⟨y, hy, rfl⟩ := hp
          have hyf : y ∈ db.account.filter (fun a => optEq t.account a.id) := by
            rw [hf]
            exact hy
          have hEq := (List.mem_filter.mp hyf).2
          have hsome := optEq_isSome_right hEq
          simp [Option.isNone_iff_eq_none]
          exact Option.isSome_iff_ne_none.mp hsome
        rw [hcount]
        simp

/-- C8. An accounting line whose non-null account id resolves to no account
row still reaches the base relation (given its header and line joins), with
the placeholder account name, a null account id and its own amount; and
null_accounts counts exactly the lines with unresolved account keys, hence
counts this one. -/
theorem C8_orphan_account :
    ∀ (db : Database) (t : TalRow) (n : ℤ) (th : TransactionHeaderRow)
      (tl : TransactionLineRow),
      t ∈ db.tal → t.account = some n → (∀ a ∈ db.account, a.id ≠ some n) →
      th ∈ db.transaction_header → optEq t.transaction th.id = true →
      tl ∈ db.transactionline → optEq t.transaction tl.transaction = true →
        (∃ b ∈ base_relation db noFilters,
            b.account_name = some (("Unknown Account [") ++ toString n ++ ("]"))
              ∧ b.account_id = none ∧ b.amount = t.amount)
          ∧ nullAccounts db
              = db.tal.countP (fun x => db.account.all (fun a => !(optEq x.account a.id)))
          ∧ 0 < nullAccounts db := by
  intro db t n th tl ht hacc hne hth hopt htl hopt2
  have hfilA : db.account.filter (fun a => optEq t.account a.id) = [] := by
    rw [List.filter_eq_nil_iff]
    intro a ha hpred
    rcases optEq_true_iff.mp hpred with ⟨m, hm1, hm2⟩
    rw [hacc] at hm1
    injection hm1 with hm1
    exact hne a ha (by rw [hm2, hm1])
  obtain ⟨s?, hs⟩ := exists_mem_optMatches db.subsidiary (fun s => optEq tl.subsidiary s.id)
  obtain ⟨ap?, hap⟩ := exists_mem_optMatches db.accountingperiod
    (fun p => optEq th.postingperiod p.id)
  have hjmem : (⟨t, none, tl, s?, th, ap?⟩ : Joined) ∈ joinedRows db := by
    rw [mem_joinedRows]
    refine ⟨ht, ?_⟩
    rw [mem_rowsForLine]
    refine ⟨rfl, ?_, List.mem_filter.mpr ⟨htl, hopt2⟩, hs,
      List.mem_filter.mpr ⟨hth, hopt⟩, hap⟩
    rw [optMatches_of_no_match hfilA]
    exact List.mem_singleton.mpr rfl
  refine ⟨⟨project ⟨t, none, tl, s?, th, ap?⟩, ?_, ?_, rfl, rfl⟩, nullAccounts_eq db, ?_⟩
  · simp only [base_relation, List.mem_map]
    exact ⟨_, List.mem_filter.mpr ⟨hjmem, rowPasses_noFilters _⟩, rfl⟩
  · simp [project, hacc]
  · rw [nullAccounts_eq db]
    refine List.countP_pos_iff.mpr ⟨t, ht, ?_⟩
    rw [List.all_eq_true]
    intro a ha
    have hfalse : optEq t.account a.id = false := by
      cases hx : optEq t.account a.id with
      | false => rfl
      | true =>
        exact absurd (List.mem_filter.mpr ⟨ha, hx⟩)
          (by rw [hfilA]; exact List.not_mem_nil a)
    rw [hfalse]
    rfl

/-- C8 witness: the theorem applied to a concrete orphaned line. -/
theorem C8_orphan_account_witness :
    (∃ b ∈ base_relation exDbOrphan noFilters,
        b.account_name = some (("Unknown Account [") ++ toString ((7 : ℤ)) ++ ("]"))
          ∧ b.account_id = none ∧ b.amount = ((⟨some 1, some 7, (5 : ℚ)⟩ : TalRow)).amount)
      ∧ nullAccounts exDbOrphan
          = exDbOrphan.tal.countP (fun x => exDbOrphan.account.all
              (fun a => !(optEq x.account a.id)))
      ∧ 0 < nullAccounts exDbOrphan := by
  refine C8_orphan_account exDbOrphan ⟨some 1, some 7, (5 : ℚ)⟩ 7 ⟨some 1, none, none, false⟩
    ⟨some 1, none, none⟩ (List.Mem.head _) rfl ?_ (List.Mem.head _) rfl (List.Mem.head _) rfl
  intro a ha
  rw [List.mem_singleton.mp ha]
  intro hcontra
  injection hcontra with h2
  exact absurd h2 (by decide)

/-- C10. A base-relation row whose account reference is unresolved carries
the placeholder account type Unknown; no P-and-L or Balance Sheet output
row ever has type Unknown (their allow-lists exclude it), while the Trial
Balance keeps a group row for every such base row. -/
theorem C10_unknown_type_routing :
    ∀ (db : Database) (f : Filters),
      (∀ r ∈ generate_pnl db f, r.account_type ≠ ("Unknown"))
        ∧ (∀ r ∈ generate_balance_sheet db f, r.account_type ≠ ("Unknown"))
        ∧ (∀ j ∈ joinedRows db, j.acct = none → (project j).account_type = ("Unknown"))
        ∧ (∀ b ∈ base_relation db f, b.account_type = ("Unknown") →
            ∃ r ∈ generate_trial_balance db f,
              r.subsidiary_name = b.subsidiary_name ∧ r.account_name = b.account_name
                ∧ r.account_type = ("Unknown")) := by
  intro db f
  refine ⟨?_, ?_, ?_, ?_⟩
  · intro r hr hU
    obtain ⟨b, hb, -, -, hty⟩ := groupSum_sound hr
    have hc := (List.mem_filter.mp hb).2
    rw [hty, hU] at hc
    exact absurd hc (by decide)
  · intro r hr hU
    obtain ⟨b, hb, -, -, hty⟩ := groupSum_sound hr
    have hc := (List.mem_filter.mp hb).2
    rw [hty, hU] at hc
    exact absurd hc (by decide)
  · intro j hj hnone
    simp [project, hnone]
  · intro b hb hU
    obtain ⟨r, hr, h1, h2, h3⟩ := groupSum_complete hb
    exact ⟨r, hr, h1, h2, by rw [h3, hU]⟩

/-- C10 witness: the theorem applied to a concrete orphaned line and a
concrete P-and-L row. -/
theorem C10_unknown_type_routing_witness :
    (project jOrphan).account_type = ("Unknown")
      ∧ (∃ r ∈ generate_trial_balance exDbOrphan noFilters,
          r.subsidiary_name = (project jOrphan).subsidiary_name
            ∧ r.account_name = (project jOrphan).account_name
            ∧ r.account_type = ("Unknown"))
      ∧ ((⟨("S"), some ("Sales"), ("Income"), duckRound2 (([((-500 : ℚ))]).sum)⟩ :
          ReportRow)).account_type ≠ ("Unknown") := by
  have hj : jOrphan ∈ joinedRows exDbOrphan := List.Mem.head _
  have hb : project jOrphan ∈ base_relation exDbOrphan noFilters := List.Mem.head _
  have hr : (⟨("S"), some ("Sales"), ("Income"), duckRound2 (([((-500 : ℚ))]).sum)⟩ :
      ReportRow) ∈ generate_pnl exDbPnl noFilters := List.Mem.head _
  exact ⟨(C10_unknown_type_routing exDbOrphan noFilters).2.2.1 jOrphan hj rfl,
    (C10_unknown_type_routing exDbOrphan noFilters).2.2.2 (project jOrphan) hb rfl,
    (C10_unknown_type_routing exDbPnl noFilters).1 _ hr⟩

end NSFV

namespace NSFV

lemma optEq_some_some (x y : ℤ) : optEq (some x) (some y) = (x == y) := rfl

lemma length_flatMap_const {α β : Type} (l : List α) (g : α → List β) (n : ℕ)
    (h : ∀ x ∈ l, (g x).length = n) : (l.flatMap g).length = l.length * n := by
  induction l with
  | nil => simp
  | cons a as ih =>
    rw [List.flatMap_cons, List.length_append, List.length_cons,
      h a (List.mem_cons_self a as), ih (fun x hx => h x (List.mem_cons_of_mem a hx))]
    ring

/-- With unique keys, at most one row matches a given key value. -/
lemma filter_optEq_le_one {β : Type} {ts : List β} {key : β → Option ℤ}
    (h : (ts.filterMap key).Nodup) (n : ℤ) :
    (ts.filter (fun b => optEq (some n) (key b))).length ≤ 1 := by
  induction ts with
  | nil => simp
  | cons a as ih =>
    rw [List.filter_cons]
    cases hk : key a with
    | none =>
      have h2 : (as.filterMap key).Nodup := by
        simp only [List.filterMap_cons, hk] at h
        exact h
      rw [show optEq (some n) (none : Option ℤ) = false from rfl]
      simp only [Bool.false_eq_true, if_false]
      exact ih h2
    | some m =>
      have hpair : m ∉ as.filterMap key ∧ (as.filterMap key).Nodup := by
        simp only [List.filterMap_cons, hk, List.nodup_cons] at h
        exact h
      by_cases hmn : m = n
      · subst hmn
        rw [show optEq (some m) (some m) = true from by
          rw [optEq_some_some]; exact beq_self_eq_true m, if_pos rfl]
        have hfe : as.filter (fun b => optEq (some m) (key b)) = [] := by
          rw [List.filter_eq_nil_iff]
          intro b hb hpred
          rcases optEq_true_iff.mp hpred with ⟨k, hk1, hk2⟩
          injection hk1 with hk1
          exact hpair.1 (List.mem_filterMap.mpr ⟨b, hb, by rw [hk2, ← hk1]⟩)
        rw [hfe]
        simp
      · rw [show optEq (some n) (some m) = false from by
          rw [optEq_some_some]; exact beq_eq_false_iff_ne.mpr (fun hh => hmn hh.symm)]
        simp only [Bool.false_eq_true, if_false]
        exact ih hpair.2

/-- With unique keys, a left-join match list always has exactly one entry
(the matching row, or the single null row). -/
lemma optMatches_length_one {β : Type} {ts : List β} {key : β → Option ℤ}
    (h : (ts.filterMap key).Nodup) (x : Option ℤ) :
    (optMatches ts (fun b => optEq x (key b))).length = 1 := by
  cases x with
  | none =>
    rw [optMatches_of_no_match (List.filter_eq_nil_iff.mpr (fun a _ => by
      simp [optEq_none_left]))]
    rfl
  | some n =>
    rcases hf : ts.filter (fun b => optEq (some n) (key b)) with _ | ⟨z, zs⟩
    · rw [optMatches_of_no_match hf]
      rfl
    · have hle := filter_optEq_le_one h n
      rw [hf] at hle
      have hlen : zs.length + 1 ≤ 1 := by simpa using hle
      have hzs : zs = [] := List.length_eq_zero.mp (by omega)
      subst hzs
      rw [show optMatches ts (fun b => optEq (some n) (key b)) = ([z]).map some from by
        simp [optMatches, hf]]
      rfl

/-- With unique keys, a resolving inner join matches exactly one row. -/
lemma filter_length_one_of_mem {β : Type} {ts : List β} {key : β → Option ℤ}
    (h : (ts.filterMap key).Nodup) {x : Option ℤ} {b : β} (hb : b ∈ ts)
    (hx : optEq x (key b) = true) :
    (ts.filter (fun c => optEq x (key c))).length = 1 := by
  rcases optEq_true_iff.mp hx with ⟨n, rfl, -⟩
  have hle := filter_optEq_le_one h n
  have hpos : 0 < (ts.filter (fun c => optEq (some n) (key c))).length :=
    List.length_pos.mpr (List.ne_nil_of_mem (List.mem_filter.mpr ⟨hb, hx⟩))
  omega

/-- C2 counterexample. An accounting line whose transaction id resolves to
a transaction header but whose transaction has no TransactionLine rows
produces zero base-relation rows, not exactly one: the inner join on
transactionline drops it. -/
theorem C2_counterexample_line_dropped :
    base_relation dbNoLines noFilters = []
      ∧ (dbNoLines.transaction_header.filter
          (fun th => optEq ((⟨some 1, some 1, (5 : ℚ)⟩ : TalRow)).transaction th.id)).length = 1
      ∧ dbNoLines.tal = [⟨some 1, some 1, (5 : ℚ)⟩]
      ∧ dbNoLines.transactionline = [] :=
  ⟨rfl, rfl, rfl, rfl⟩

/-- C2 (amended). The base relation is built line by line, and for a
dataset with unique account, subsidiary, header and period ids, an
accounting line whose transaction id resolves to a TransactionHeader
produces exactly one joined record per matching TransactionLine row — no
fan-out beyond the TransactionLine join cardinality, and zero records
(the line is dropped) when the transaction has no TransactionLine rows. -/
theorem C2_join_cardinality :
    ∀ (db : Database) (t : TalRow),
      (db.account.filterMap (fun a => a.id)).Nodup →
      (db.subsidiary.filterMap (fun s => s.id)).Nodup →
      (db.transaction_header.filterMap (fun th => th.id)).Nodup →
      (db.accountingperiod.filterMap (fun p => p.id)).Nodup →
      (∃ th ∈ db.transaction_header, optEq t.transaction th.id = true) →
        joinedRows db = db.tal.flatMap (rowsForLine db)
          ∧ (rowsForLine db t).length
              = (db.transactionline.filter
                  (fun tl => optEq t.transaction tl.transaction)).length := by
  intro db t hA hS hT hP hres
  refine ⟨rfl, ?_⟩
  obtain ⟨th0, hth0, hopt⟩ := hres
  have hTH : (db.transaction_header.filter (fun th => optEq t.transaction th.id)).length = 1 :=
    filter_length_one_of_mem hT hth0 hopt
  unfold rowsForLine
  rw [length_flatMap_const _ _
      ((db.transactionline.filter (fun tl => optEq t.transaction tl.transaction)).length)
      (fun a? _ => by
        rw [length_flatMap_const _ _ 1 (fun tl _ => by
          rw [length_flatMap_const _ _ 1 (fun s? _ => by
            rw [length_flatMap_const _ _ 1 (fun th _ => by
              rw [List.length_map]
              exact optMatches_length_one hP th.postingperiod), mul_one, hTH]),
            mul_one, optMatches_length_one hS tl.subsidiary]),
          mul_one]),
    optMatches_length_one hA t.account, one_mul]

/-- C2 witness: the cardinality applied to a transaction with two lines. -/
theorem C2_join_cardinality_witness :
    (rowsForLine dbTwoLines ⟨some 1, some 1, (5 : ℚ)⟩).length
        = (dbTwoLines.transactionline.filter
            (fun tl => optEq ((⟨some 1, some 1, (5 : ℚ)⟩ : TalRow)).transaction
              tl.transaction)).length
      ∧ (dbTwoLines.transactionline.filter
          (fun tl => optEq ((⟨some 1, some 1, (5 : ℚ)⟩ : TalRow)).transaction
            tl.transaction)).length = 2 := by
  refine ⟨(C2_join_cardinality dbTwoLines ⟨some 1, some 1, (5 : ℚ)⟩ (by decide) (by decide)
    (by decide) (by decide) ⟨⟨some 1, none, none, false⟩, List.Mem.head _, rfl⟩).2, rfl⟩

end NSFV
